import Mathlib

/-!
Verification development for the rule-based prompt analyzer
(backend/services/analyzer.service.js together with its text-metric helpers
in utils/text.utils.js and the fallback rule configuration).

Modelling conventions:
* JavaScript numbers are modelled as exact rationals (ℚ); `x.toFixed(d)`
  followed by `Number(...)` is modelled as decimal rounding half-up at d
  digits (`jsToFixed`), and `Math.round` as Mathlib `round` (both are
  floor (x + 1/2) on the exact value).
* Strings are Lean strings; the handful of regular expressions used by the
  source are implemented directly as character-list scanners with the exact
  word-boundary (\b) semantics of the JavaScript patterns involved.
* `String.prototype.toLowerCase` is modelled as ASCII lowering, which agrees
  with the source on all inputs relevant to the ASCII-only patterns used.
-/

-- ---------------------------------------------------------------------------
-- Character classes used by the source regular expressions
-- ---------------------------------------------------------------------------

/-- JavaScript \s (whitespace class), restricted to the common ASCII members:
space and the control range tab, newline, vertical tab, form feed, carriage
return (code points 9-13). -/
def isSpaceChar (c : Char) : Bool :=
  c == ' ' || (9 ≤ c.toNat && c.toNat ≤ 13)

/-- ASCII letter, the class [A-Za-z] used by detectLanguage. -/
def isAsciiLetter (c : Char) : Bool :=
  ('A' ≤ c && c ≤ 'Z') || ('a' ≤ c && c ≤ 'z')

/-- The class \d. -/
def isDigitChar (c : Char) : Bool :=
  '0' ≤ c && c ≤ '9'

/-- JavaScript \w, the class [A-Za-z0-9_]; word-boundary \b is defined from it. -/
def isWordChar (c : Char) : Bool :=
  isAsciiLetter c || isDigitChar c || c == '_'

/-- The token class [a-z0-9'-] of countRepeats (the apostrophe is char 39). -/
def isTokChar (c : Char) : Bool :=
  ('a' ≤ c && c ≤ 'z') || isDigitChar c || c.toNat == 39 || c == '-'

/-- ASCII lowering, modelling String.prototype.toLowerCase on the inputs
relevant to the ASCII-only patterns of the source. -/
def asciiLower (c : Char) : Char :=
  if 'A' ≤ c && c ≤ 'Z' then Char.ofNat (c.toNat + 32) else c

/-- The vowel-like class [aeiouy] of the syllable heuristic (case-insensitive). -/
def isVowelChar (c : Char) : Bool :=
  let l := asciiLower c
  l == 'a' || l == 'e' || l == 'i' || l == 'o' || l == 'u' || l == 'y'

-- ---------------------------------------------------------------------------
-- text.utils.js: word/sentence metrics
-- ---------------------------------------------------------------------------

/-- String.prototype.trim: strip \s characters from both ends. -/
def jsTrim (s : String) : String :=
  String.mk (((s.toList.dropWhile isSpaceChar).reverse.dropWhile isSpaceChar).reverse)

/-- Accumulator-based splitter for the \S+ global match. -/
def wordsAux : List Char → List Char → List (List Char)
  | cur, [] => if cur.isEmpty then [] else [cur.reverse]
  | cur, c :: cs =>
    if isSpaceChar c then
      (if cur.isEmpty then wordsAux [] cs else cur.reverse :: wordsAux [] cs)
    else wordsAux (c :: cur) cs

/-- The list of \S+ matches of a string. -/
def splitWords (s : String) : List String :=
  (wordsAux [] s.toList).map String.mk

/-- Number of maximal runs of characters satisfying p (global match count of
a pattern of the form [class]+). -/
def runCount (p : Char → Bool) : Bool → List Char → ℕ
  | _, [] => 0
  | inRun, c :: cs =>
    if p c then (if inRun then runCount p true cs else runCount p true cs + 1)
    else runCount p false cs

/-- wordCount from text.utils.js: number of \S+ matches of the trimmed string. -/
def wordCount (s : String) : ℕ :=
  (splitWords (jsTrim s)).length

/-- sentenceCount from text.utils.js: number of [.!?]+ runs, with a non-empty
unpunctuated string counting as one sentence. -/
def sentenceCount (s : String) : ℕ :=
  let n := runCount (fun c => c == '.' || c == '!' || c == '?') false s.toList
  if n = 0 then (if (jsTrim s).isEmpty then 0 else 1) else n

/-- avgSentenceLength from text.utils.js. -/
def avgSentenceLength (s : String) : ℚ :=
  let w := wordCount s
  let c := sentenceCount s
  if c = 0 then 0 else (w : ℚ) / (c : ℚ)

/-- longWordRatio from text.utils.js: fraction of words of length ≥ threshold. -/
def longWordRatio (s : String) (threshold : ℚ) : ℚ :=
  let words := splitWords (jsTrim s)
  let long := words.countP (fun w => decide (threshold ≤ (w.length : ℚ)))
  if words.length = 0 then 0 else (long : ℚ) / (words.length : ℚ)

/-- estimateTokens from text.utils.js: Math.round(wordCount * 0.75). -/
def estimateTokens (s : String) : ℤ :=
  round ((wordCount s : ℚ) * 0.75)

-- ---------------------------------------------------------------------------
-- Decimal rounding used by toFixed / Number(...)
-- ---------------------------------------------------------------------------

/-- Number(x.toFixed(d)): decimal rounding half-up at d digits. -/
def jsToFixed (d : ℕ) (q : ℚ) : ℚ :=
  ((round (q * (10 : ℚ) ^ d) : ℤ) : ℚ) / (10 : ℚ) ^ d

-- ---------------------------------------------------------------------------
-- Word-bounded pattern matching (the \b(...)\b regexes of the source)
-- ---------------------------------------------------------------------------

/-- Word-ness of an optional character (absent counts as non-word). -/
def wOpt : Option Char → Bool
  | none => false
  | some c => isWordChar c

/-- Does the first list occur literally at the head of the second? -/
def litAt : List Char → List Char → Bool
  | [], _ => true
  | _ :: _, [] => false
  | p :: ps, c :: cs => p == c && litAt ps cs

/-- Word-ness of the first character of a literal. -/
def litHeadWord (lit : List Char) : Bool := wOpt lit.head?

/-- Word-ness of the last character of a literal. -/
def litLastWord (lit : List Char) : Bool := wOpt lit.getLast?

/-- Scan for an occurrence of the literal with a word boundary on both sides,
tracking the previous character for the \b test. -/
def litBoundedFrom (lit : List Char) : Option Char → List Char → Bool
  | _, [] => false
  | prev, c :: cs =>
    (litAt lit (c :: cs) && (wOpt prev != litHeadWord lit)
      && (litLastWord lit != wOpt (((c :: cs).drop lit.length).head?)))
    || litBoundedFrom lit (some c) cs

/-- Case-insensitive test of the pattern \b lit \b against a lowered text. -/
def litBounded (lit : String) (lowered : List Char) : Bool :=
  litBoundedFrom (lit.toList.map asciiLower) none lowered

/-- The characters of the literal "-word". -/
def dashWordChars : List Char := ['-', 'w', 'o', 'r', 'd']

/-- Scan for the pattern \b(\d+-word)\b (third verbose-phrase fallback). -/
def numWordFrom : Option Char → List Char → Bool
  | _, [] => false
  | prev, c :: cs =>
    (isDigitChar c && !wOpt prev &&
      (let run := (c :: cs).takeWhile isDigitChar
       let rest := (c :: cs).drop run.length
       litAt dashWordChars rest && !wOpt ((rest.drop 5).head?)))
    || numWordFrom (some c) cs

/-- A configured pattern: either an alternation of word-bounded literals
(\b(a|b|...)\b with the i flag) or the \b(\d+-word)\b pattern. -/
inductive Pat where
  | lits : List String → Pat
  | numWord : Pat
deriving DecidableEq

/-- Case-insensitive test of a configured pattern against a text. -/
def evalPat (p : Pat) (text : String) : Bool :=
  let l := text.toList.map asciiLower
  match p with
  | Pat.lits alts => alts.any (fun a => litBounded a l)
  | Pat.numWord => numWordFrom none l

/-- The characters of the literal "word". -/
def wordChars : List Char := ['w', 'o', 'r', 'd']

/-- The characters of the literal "words". -/
def wordsChars : List Char := ['w', 'o', 'r', 'd', 's']

/-- Scan for \b\d{2,4}\s*-\s*word(s)?\b or \b\d{2,4}\s*words\b. -/
def forcedFrom : Option Char → List Char → Bool
  | _, [] => false
  | prev, c :: cs =>
    (isDigitChar c && !wOpt prev &&
      (let run := (c :: cs).takeWhile isDigitChar
       let rest := (c :: cs).drop run.length
       (2 ≤ run.length && run.length ≤ 4) &&
       ((match rest.dropWhile isSpaceChar with
         | [] => false
         | d :: r2 =>
           d == '-' &&
             (let r3 := r2.dropWhile isSpaceChar
              (litAt wordsChars r3 && !wOpt ((r3.drop 5).head?))
              || (litAt wordChars r3 && !wOpt ((r3.drop 4).head?))))
        ||
        (let r1 := rest.dropWhile isSpaceChar
         litAt wordsChars r1 && !wOpt ((r1.drop 5).head?)))))
    || forcedFrom (some c) cs

/-- hasForcedLength from analyzer.service.js. -/
def hasForcedLength (s : String) : Bool :=
  forcedFrom none (s.toList.map asciiLower)

/-- hasFormatInstruction from analyzer.service.js:
\b(json|csv|table|bullets?|outline|headings?)\b with the i flag, the optional
s handled by listing both alternatives. -/
def hasFormatInstruction (s : String) : Bool :=
  evalPat (Pat.lits ["json", "csv", "table", "bullets", "bullet",
                     "outline", "headings", "heading"]) s

-- ---------------------------------------------------------------------------
-- countRepeats: the token scan \b[a-z0-9'-]+\b on the lowered text
-- ---------------------------------------------------------------------------

/-- End-of-match test for a candidate cut j inside a maximal token run:
a word boundary must hold between run[j-1] and the following character
(run[j], or the first character after the run at j = run.length). -/
def goodCut (run : List Char) (afterHead : Option Char) (j : ℕ) : Bool :=
  match run.get? (j - 1) with
  | none => false
  | some a =>
    isWordChar a != wOpt (match run.get? j with
                          | some b => some b
                          | none => afterHead)

/-- Largest cut 1 ≤ j ≤ run.length at which the match can end (the greedy
[class]+ with backtracking tries the longest first). -/
def cutPoint (run : List Char) (afterHead : Option Char) : Option ℕ :=
  ((List.range (run.length + 1)).reverse).find?
    (fun j => decide (1 ≤ j) && goodCut run afterHead j)

/-- Operational scan of the global regex \b[a-z0-9'-]+\b: at each position
with a word boundary and a token character, take the maximal token run,
backtrack to the largest cut with an ending boundary, emit the match and
continue after it; otherwise advance one character. Fuel bounds recursion. -/
def tokScan : ℕ → Option Char → List Char → List String
  | 0, _, _ => []
  | _, _, [] => []
  | Nat.succ fuel, prev, c :: cs =>
    if isTokChar c && (wOpt prev != isWordChar c) then
      let run := (c :: cs).takeWhile isTokChar
      let after := (c :: cs).drop run.length
      match cutPoint run after.head? with
      | some j => String.mk (run.take j) :: tokScan fuel (run.get? (j - 1)) (run.drop j ++ after)
      | none => tokScan fuel (some c) cs
    else tokScan fuel (some c) cs

/-- countRepeats from analyzer.service.js: number of distinct consecutive
token bigrams occurring at least 3 times in the lowered text. -/
def countRepeats (s : String) : ℕ :=
  let toks := tokScan (s.length + 1) none (s.toList.map asciiLower)
  let bs := toks.zip toks.tail
  bs.dedup.countP (fun b => decide (3 ≤ bs.count b))

-- ---------------------------------------------------------------------------
-- vaguenessScore, detectLanguage, fleschReadingEase
-- ---------------------------------------------------------------------------

/-- The weak-verb list of vaguenessScore. -/
def weakVerbs : List String :=
  ["improve", "optimize", "enhance", "refine", "fix", "make better", "help", "elaborate"]

/-- The weak-adverb list of vaguenessScore. -/
def weakAdverbs : List String :=
  ["really", "very", "extremely", "significantly", "highly"]

/-- vaguenessScore from analyzer.service.js: one hit per list entry present
as a word-bounded, case-insensitive match. -/
def vaguenessScore (s : String) : ℕ :=
  weakVerbs.countP (fun v => evalPat (Pat.lits [v]) s)
    + weakAdverbs.countP (fun a => evalPat (Pat.lits [a]) s)

/-- detectLanguage from analyzer.service.js: ratio of ASCII letters to
non-whitespace characters, with a zero denominator guarded to 1. -/
def detectLanguage (s : String) : String :=
  let ascii := (s.toList.filter isAsciiLetter).length
  let total0 := (s.toList.filter (fun c => !isSpaceChar c)).length
  let total := if total0 = 0 then 1 else total0
  if (0.85 : ℚ) < (ascii : ℚ) / (total : ℚ) then "en" else "unknown"

/-- Number of [aeiouy]+ runs of a word (its syllable approximation). -/
def vowelRunCount (w : String) : ℕ :=
  runCount isVowelChar false w.toList

/-- fleschReadingEase from analyzer.service.js. The denominators are guarded
to 1 and the total syllable count falls back to the guarded word count when
it is zero (a global fallback, applied to the sum, not per word); the result
is rounded to one decimal. -/
def fleschReadingEase (text : String) : ℚ :=
  let words := splitWords (jsTrim text)
  let S : ℚ := (let n := sentenceCount text; if n = 0 then 1 else (n : ℚ))
  let W : ℚ := if words.length = 0 then 1 else (words.length : ℚ)
  let syl : ℚ := (let t := (words.map vowelRunCount).sum; if t = 0 then W else (t : ℚ))
  jsToFixed 1 (206.835 - 1.015 * (W / S) - 84.6 * (syl / W))

-- ---------------------------------------------------------------------------
-- Rule configuration: fallback defaults and the defensive merge
-- ---------------------------------------------------------------------------

/-- The thresholds block of a merged rule configuration. -/
structure Thresholds where
  maxWordsPrompt : ℚ
  maxSentencesPrompt : ℚ
  longWordLen : ℚ
  defaultMaxTokens : ℚ
deriving DecidableEq

/-- The impact-coefficient block of a merged rule configuration. -/
structure ImpactCoeffs where
  kWh_per_1k_tokens_mid : ℚ
  grid_kgCO2_per_kWh : ℚ
  water_L_per_kWh : ℚ
deriving DecidableEq

/-- A merged rule configuration (the module-level rules object). -/
structure Rules where
  thresholds : Thresholds
  vaguePhrases : List Pat
  verbosePhrases : List Pat
  taskKeywords : List (String × Pat)
  impact : ImpactCoeffs
deriving DecidableEq


/-- The FALLBACK constant of analyzer.service.js. The vague-phrase pattern
\b(improve|make (it|this) better|refine|polish|any ideas|your thoughts|enhance)\b
is represented by its expanded list of alternatives, likewise the task
keyword patterns; the verbose-phrase list keeps its three separate patterns. -/
def FALLBACK : Rules :=
  { thresholds :=
      { maxWordsPrompt := 150
        maxSentencesPrompt := 10
        longWordLen := 14
        defaultMaxTokens := 300 }
    vaguePhrases :=
      [Pat.lits ["improve", "make it better", "make this better", "refine",
                 "polish", "any ideas", "your thoughts", "enhance"]]
    verbosePhrases :=
      [Pat.lits ["in great detail"], Pat.lits ["elaborate on"], Pat.numWord]
    taskKeywords :=
      [("summarize", Pat.lits ["summarize", "tl;dr", "shorten", "brief"]),
       ("extract", Pat.lits ["extract", "pull", "list", "find fields", "json", "csv", "table"]),
       ("write", Pat.lits ["write", "compose", "draft", "create", "essay"]),
       ("code", Pat.lits ["code", "function", "class", "regex", "sql", "python", "javascript"]),
       ("translate", Pat.lits ["translate", "into", "from"])]
    impact :=
      { kWh_per_1k_tokens_mid := 0.02
        grid_kgCO2_per_kWh := 0.35
        water_L_per_kWh := 1 } }

/-- An external thresholds block: a present key carries a value, a missing
key is none (the spread { ...FALLBACK.thresholds, ...overrides }). -/
structure ThresholdsIn where
  maxWordsPrompt : Option ℚ := none
  maxSentencesPrompt : Option ℚ := none
  longWordLen : Option ℚ := none
  defaultMaxTokens : Option ℚ := none
deriving DecidableEq

/-- An external impact block, same convention. -/
structure ImpactIn where
  kWh_per_1k_tokens_mid : Option ℚ := none
  grid_kgCO2_per_kWh : Option ℚ := none
  water_L_per_kWh : Option ℚ := none
deriving DecidableEq

/-- An external rule configuration (the RULES_IN object). A none field is
absent or of the wrong type (not an array for the phrase lists, not an
object for taskKeywords), making the source fall back wholesale. -/
structure RulesIn where
  thresholds : Option ThresholdsIn := none
  vaguePhrases : Option (List Pat) := none
  verbosePhrases : Option (List Pat) := none
  taskKeywords : Option (List (String × Pat)) := none
  impact : Option ImpactIn := none
deriving DecidableEq

/-- The defensive merge of analyzer.service.js (the rules constant):
thresholds and impact are spread key-by-key over the fallback; the two
phrase lists and taskKeywords are taken wholesale when supplied with the
right type and fall back wholesale otherwise. -/
def mergeRules (rin : RulesIn) : Rules :=
  let tin := rin.thresholds.getD {}
  let iin := rin.impact.getD {}
  { thresholds :=
      { maxWordsPrompt := tin.maxWordsPrompt.getD FALLBACK.thresholds.maxWordsPrompt
        maxSentencesPrompt := tin.maxSentencesPrompt.getD FALLBACK.thresholds.maxSentencesPrompt
        longWordLen := tin.longWordLen.getD FALLBACK.thresholds.longWordLen
        defaultMaxTokens := tin.defaultMaxTokens.getD FALLBACK.thresholds.defaultMaxTokens }
    vaguePhrases := rin.vaguePhrases.getD FALLBACK.vaguePhrases
    verbosePhrases := rin.verbosePhrases.getD FALLBACK.verbosePhrases
    taskKeywords := rin.taskKeywords.getD FALLBACK.taskKeywords
    impact :=
      { kWh_per_1k_tokens_mid := iin.kWh_per_1k_tokens_mid.getD FALLBACK.impact.kWh_per_1k_tokens_mid
        grid_kgCO2_per_kWh := iin.grid_kgCO2_per_kWh.getD FALLBACK.impact.grid_kgCO2_per_kWh
        water_L_per_kWh := iin.water_L_per_kWh.getD FALLBACK.impact.water_L_per_kWh } }

/-- detectTask from analyzer.service.js: first matching task keyword in
declaration order, else "general". -/
def detectTask (rules : Rules) (text : String) : String :=
  match rules.taskKeywords.find? (fun kv => evalPat kv.2 text) with
  | some kv => kv.1
  | none => "general"

-- ---------------------------------------------------------------------------
-- Analyzer input, report shape
-- ---------------------------------------------------------------------------

/-- The caller parameter bag. max_tokens is some q exactly when the caller
supplied a finite number (Number.isFinite), temperature is some t exactly
when the caller supplied a number. -/
structure Params where
  max_tokens : Option ℚ := none
  temperature : Option ℚ := none
deriving DecidableEq

/-- An issue entry { id, sev, msg }. -/
structure Issue where
  id : String
  sev : String
  msg : String
deriving DecidableEq

/-- An autofix entry: its id together with its payload. -/
inductive Autofix where
  | setMaxTokens : ℚ → Autofix
  | lowerTemp : ℚ → Autofix
  | addFormatHint : String → Autofix
deriving DecidableEq

/-- The metrics.input block of the report. -/
structure InputMetrics where
  lang : String
  words : ℕ
  sentences : ℕ
  tokens : ℤ
  avgSentence : ℚ
  longWordRatio : ℚ
  fleschReadingEase : ℚ
  repeats : ℕ
deriving DecidableEq

/-- The metrics.params block of the report. -/
structure ParamsEcho where
  max_tokens : Option ℚ
  temperature : Option ℚ
  task : String
deriving DecidableEq

/-- The impact_estimate block of the report. -/
structure ImpactEstimate where
  kWh : ℚ
  CO2e_kg : ℚ
  water_L : ℚ
deriving DecidableEq

/-- The analyzer report. -/
structure Report where
  score : ℤ
  grade : String
  retryRisk : ℚ
  metrics_input : InputMetrics
  metrics_params : ParamsEcho
  issues : List Issue
  tips : List String
  autofixes : List Autofix
  impact_estimate : ImpactEstimate
  suggestedPrompt : String
deriving DecidableEq

-- ---------------------------------------------------------------------------
-- Analyzer pipeline (analyzer.service.js, analyzePrompt)
-- ---------------------------------------------------------------------------

/-- Truthiness of the maxTokens local (null and 0 are falsy). -/
def capSupplied (mt : Option ℚ) : Bool :=
  match mt with
  | none => false
  | some q => !(q == 0)

/-- The outCap local: maxTokens || rules.thresholds.defaultMaxTokens. -/
def outputCap (rules : Rules) (mt : Option ℚ) : ℚ :=
  if capSupplied mt then mt.getD 0 else rules.thresholds.defaultMaxTokens

/-- The kWh local before rounding: (totalTokens / 1000) × midpoint coefficient. -/
def rawKWh (rules : Rules) (prompt : String) (mt : Option ℚ) : ℚ :=
  (((estimateTokens prompt : ℚ) + outputCap rules mt) / 1000) * rules.impact.kWh_per_1k_tokens_mid

/-- The CO2e_kg local before rounding. -/
def rawCO2 (rules : Rules) (prompt : String) (mt : Option ℚ) : ℚ :=
  rawKWh rules prompt mt * rules.impact.grid_kgCO2_per_kWh

/-- The water_L local before rounding. -/
def rawWater (rules : Rules) (prompt : String) (mt : Option ℚ) : ℚ :=
  rawKWh rules prompt mt * rules.impact.water_L_per_kWh

/-- The NO_MAX_TOKENS issue pushed when no (truthy) cap is supplied. -/
def nomaxIssue : Issue :=
  { id := "NO_MAX_TOKENS", sev := "high",
    msg := "No output cap set; responses may be longer than needed." }

/-- Detector block 1: PROMPT_TOO_LONG. -/
def issuesTooLong (rules : Rules) (prompt : String) : List Issue :=
  let inputWords := wordCount prompt
  let mw := rules.thresholds.maxWordsPrompt
  if mw < (inputWords : ℚ) then
    [{ id := "PROMPT_TOO_LONG", sev := "med",
       msg := "Prompt has " ++ toString inputWords ++ " words; target ≤ " ++ toString mw ++ "." }]
  else []

/-- Detector block 2: TOO_MANY_SENTENCES (the threshold is defended by
|| 10 against a falsy configured value). -/
def issuesTooManySentences (rules : Rules) (prompt : String) : List Issue :=
  let inputSentences := sentenceCount prompt
  let ms := rules.thresholds.maxSentencesPrompt
  let sentLimit := if ms = 0 then 10 else ms
  if sentLimit < (inputSentences : ℚ) then
    [{ id := "TOO_MANY_SENTENCES", sev := "low",
       msg := "Contains " ++ toString inputSentences ++ " sentences; try ≤ " ++ toString ms ++ "." }]
  else []

/-- Detector block 3: VAGUE_LANGUAGE (severity high only from the hit count). -/
def issuesVague (rules : Rules) (prompt : String) : List Issue :=
  let vScore := vaguenessScore prompt
  if rules.vaguePhrases.any (fun rx => evalPat rx prompt) || decide (2 ≤ vScore) then
    [{ id := "VAGUE_LANGUAGE", sev := if 3 ≤ vScore then "high" else "med",
       msg := "Vague verbs/adverbs likely to trigger retries." }]
  else []

/-- Detector block 4: FORCED_VERBOSITY. -/
def issuesVerbose (rules : Rules) (prompt : String) : List Issue :=
  if rules.verbosePhrases.any (fun rx => evalPat rx prompt) || hasForcedLength prompt then
    [{ id := "FORCED_VERBOSITY", sev := "high",
       msg := "Avoid word counts / “in great detail”; bound output by structure instead." }]
  else []

/-- Detector block 5: READABILITY. -/
def issuesReadability (rules : Rules) (prompt : String) : List Issue :=
  let inputWords := wordCount prompt
  let longRatio := longWordRatio prompt rules.thresholds.longWordLen
  let fre := fleschReadingEase prompt
  if 40 ≤ inputWords ∧ (fre < 40 ∨ (0.12 : ℚ) < longRatio) then
    [{ id := "READABILITY", sev := "low",
       msg := "Complex phrasing; simpler sentences improve accuracy and reduce retries." }]
  else []

/-- Detector block 6: MISSING_SCHEMA. -/
def issuesSchema (rules : Rules) (prompt : String) : List Issue :=
  if detectTask rules prompt = "extract" ∧ ¬hasFormatInstruction prompt then
    [{ id := "MISSING_SCHEMA", sev := "med",
       msg := "Extraction without format; specify JSON/CSV/table and required keys." }]
  else []

/-- Detector block 7: NO_MAX_TOKENS. -/
def issuesNoMax (mt : Option ℚ) : List Issue :=
  if capSupplied mt then [] else [nomaxIssue]

/-- Detector block 8: MISSING_FORMAT. -/
def issuesFormat (rules : Rules) (prompt : String) : List Issue :=
  let task := detectTask rules prompt
  if ¬hasFormatInstruction prompt ∧ (task = "summarize" ∨ task = "write") then
    [{ id := "MISSING_FORMAT", sev := "med",
       msg := "No format guidance is provided. Try for bullets, outline, or a small paragraph limit." }]
  else []

/-- Detector block 9: REDUNDANCY. -/
def issuesRedundancy (prompt : String) : List Issue :=
  if 1 ≤ countRepeats prompt then
    [{ id := "REDUNDANCY", sev := "low",
       msg := "Repeated phrases detected. Tighten wording to reduce processing." }]
  else []

/-- Detector block 10: HIGH_TEMP_DETERMINISTIC. -/
def issuesHighTemp (task : String) (temp : Option ℚ) : List Issue :=
  match temp with
  | some t =>
    if (0.7 : ℚ) < t ∧ (task = "summarize" ∨ task = "extract" ∨ task = "translate" ∨ task = "code") then
      [{ id := "HIGH_TEMP_DETERMINISTIC", sev := "med",
         msg := "Temperature " ++ toString t ++ " high for " ++ task ++ "; try ≤ 0.3." }]
    else []
  | none => []

/-- The issue list of analyzePrompt, one block per detector in source order
(2.2 of analyzer.service.js). -/
def buildIssues (rules : Rules) (prompt : String) (params : Params) : List Issue :=
  issuesTooLong rules prompt ++ issuesTooManySentences rules prompt
    ++ issuesVague rules prompt ++ issuesVerbose rules prompt
    ++ issuesReadability rules prompt ++ issuesSchema rules prompt
    ++ issuesNoMax params.max_tokens ++ issuesFormat rules prompt
    ++ issuesRedundancy prompt
    ++ issuesHighTemp (detectTask rules prompt) params.temperature

/-- The tips list of analyzePrompt (the pushes paired with the detector
blocks, in source order). -/
def buildTips (rules : Rules) (prompt : String) (params : Params) : List String :=
  let inputWords := wordCount prompt
  let mw := rules.thresholds.maxWordsPrompt
  let vScore := vaguenessScore prompt
  let t1 := if mw < (inputWords : ℚ) then
      ["Trim background and keep only necessary facts."] else []
  let t3 := if rules.vaguePhrases.any (fun rx => evalPat rx prompt) || decide (2 ≤ vScore) then
      ["Specify audience, exact format, and success criteria to have a more refined."] else []
  let t4 := if rules.verbosePhrases.any (fun rx => evalPat rx prompt) || hasForcedLength prompt then
      ["Ask for an outline, 3 bullets, or JSON keys instead of word counts."] else []
  let t7 := if capSupplied params.max_tokens then [] else
      ["Looks good! Also, it is also good practice to define output length limit (e.g., max_tokens)."]
  t1 ++ t3 ++ t4 ++ t7

/-- The severity weights { high: 22, med: 11, low: 5 }, with 0 for anything
else (weights[i.sev] || 0). -/
def sevWeight (sev : String) : ℤ :=
  if sev = "high" then 22 else if sev = "med" then 11 else if sev = "low" then 5 else 0

/-- The penalty reduce of analyzePrompt. -/
def penaltyOf (issues : List Issue) : ℤ :=
  issues.foldl (fun s i => s + sevWeight i.sev) 0

/-- score = Math.max(0, 100 - Math.min(70, penalty)). -/
def scoreOf (issues : List Issue) : ℤ :=
  max 0 (100 - min 70 (penaltyOf issues))

/-- The grade ladder of analyzePrompt. -/
def gradeOf (score : ℤ) : String :=
  if 90 ≤ score then "A" else if 75 ≤ score then "B" else if 60 ≤ score then "C" else "D"

/-- issues.find(i => i.id === id) used by the retry-risk accumulation. -/
def hasIssueId (issues : List Issue) (id : String) : Bool :=
  issues.any (fun i => i.id == id)

/-- The retry-risk accumulation, rounded to 2 decimals and clamped to 1. -/
def retryRiskOf (issues : List Issue) : ℚ :=
  let rr := (if hasIssueId issues "VAGUE_LANGUAGE" then (0.35 : ℚ) else 0)
          + (if hasIssueId issues "NO_MAX_TOKENS" then (0.35 : ℚ) else 0)
          + (if hasIssueId issues "MISSING_FORMAT" then (0.15 : ℚ) else 0)
          + (if hasIssueId issues "HIGH_TEMP_DETERMINISTIC" then (0.15 : ℚ) else 0)
  min 1 (jsToFixed 2 rr)

/-- Autofix block: SET_MAX_TOKENS whenever no truthy cap was supplied. -/
def autofixNoMax (mt : Option ℚ) : List Autofix :=
  if capSupplied mt then [] else [Autofix.setMaxTokens 200]

/-- Autofix block: LOWER_TEMP under the HIGH_TEMP_DETERMINISTIC condition. -/
def autofixHighTemp (task : String) (temp : Option ℚ) : List Autofix :=
  match temp with
  | some t =>
    if (0.7 : ℚ) < t ∧ (task = "summarize" ∨ task = "extract" ∨ task = "translate" ∨ task = "code") then
      [Autofix.lowerTemp 0.3]
    else []
  | none => []

/-- Autofix block: ADD_FORMAT_HINT whenever no format keyword is present. -/
def autofixFormatHint (prompt : String) : List Autofix :=
  if hasFormatInstruction prompt then [] else
    [Autofix.addFormatHint "Ask for 3 bullets, or JSON \x7bkey:...\x7d with 4 fields."]

/-- The autofix list of analyzePrompt (2.5 of analyzer.service.js). -/
def buildAutofixes (rules : Rules) (prompt : String) (params : Params) : List Autofix :=
  autofixNoMax params.max_tokens
    ++ autofixHighTemp (detectTask rules prompt) params.temperature
    ++ autofixFormatHint prompt

/-- The suggested rewrite skeleton by detected task (2.6). -/
def suggestedFor (task : String) : String :=
  if task = "summarize" then "Summarize the text into 3 bullets for a 10-year-old, ≤120 words total."
  else if task = "extract" then "Extract JSON with keys: title, date, author, topic. Keep one object only."
  else if task = "translate" then "Translate into Spanish, neutral tone, ≤120 words. Keep names unchanged."
  else if task = "code" then "Write a Python function with a docstring and one example. ≤40 lines."
  else "Answer in 3 concise bullets (≤120 words total)."

/-- analyzePrompt from analyzer.service.js, parameterised by the merged rule
configuration (the module-level rules constant of the source). -/
def analyzePrompt (rules : Rules) (prompt : String) (params : Params) : Report :=
  let issues := buildIssues rules prompt params
  let task := detectTask rules prompt
  let score := scoreOf issues
  { score := score
    grade := gradeOf score
    retryRisk := retryRiskOf issues
    metrics_input :=
      { lang := detectLanguage prompt
        words := wordCount prompt
        sentences := sentenceCount prompt
        tokens := estimateTokens prompt
        avgSentence := jsToFixed 2 (avgSentenceLength prompt)
        longWordRatio := jsToFixed 3 (longWordRatio prompt rules.thresholds.longWordLen)
        fleschReadingEase := fleschReadingEase prompt
        repeats := countRepeats prompt }
    metrics_params :=
      { max_tokens := if capSupplied params.max_tokens then params.max_tokens else none
        temperature := params.temperature
        task := task }
    issues := issues
    tips := buildTips rules prompt params
    autofixes := buildAutofixes rules prompt params
    impact_estimate :=
      { kWh := jsToFixed 4 (rawKWh rules prompt params.max_tokens)
        CO2e_kg := jsToFixed 4 (rawCO2 rules prompt params.max_tokens)
        water_L := jsToFixed 4 (rawWater rules prompt params.max_tokens) }
    suggestedPrompt := suggestedFor task }

-- ---------------------------------------------------------------------------
-- Shared helper lemmas
-- ---------------------------------------------------------------------------

/-- Every severity weight is non-negative. -/
theorem sevWeight_nonneg (sev : String) : 0 ≤ sevWeight sev := by
  unfold sevWeight
  split_ifs <;> norm_num

/-- The penalty fold only increases its accumulator. -/
theorem foldl_sev_ge (l : List Issue) : ∀ a : ℤ, a ≤ l.foldl (fun s i => s + sevWeight i.sev) a := by
  induction l with
  | nil => intro a; simp
  | cons i t ih =>
    intro a
    calc a ≤ a + sevWeight i.sev := by have := sevWeight_nonneg i.sev; omega
    _ ≤ _ := ih _

/-- The total penalty is non-negative. -/
theorem penaltyOf_nonneg (issues : List Issue) : 0 ≤ penaltyOf issues :=
  foldl_sev_ge issues 0

/-- The score is always between 30 and 100. -/
theorem scoreOf_bounds (issues : List Issue) : 30 ≤ scoreOf issues ∧ scoreOf issues ≤ 100 := by
  have h := penaltyOf_nonneg issues
  unfold scoreOf
  omega

/-- The grade ladder, characterised by score ranges. -/
theorem gradeOf_char (s : ℤ) :
    (gradeOf s = "A" ↔ 90 ≤ s) ∧ (gradeOf s = "B" ↔ 75 ≤ s ∧ s < 90) ∧
    (gradeOf s = "C" ↔ 60 ≤ s ∧ s < 75) ∧ (gradeOf s = "D" ↔ s < 60) := by
  unfold gradeOf
  split_ifs with h1 h2 h3 <;>
    refine ⟨?_, ?_, ?_, ?_⟩ <;> constructor <;> intro h <;>
    first
      | rfl
      | omega
      | exact absurd h (by decide)

/-- Decimal rounding preserves non-negativity. -/
theorem jsToFixed_nonneg (d : ℕ) (q : ℚ) (h : 0 ≤ q) : 0 ≤ jsToFixed d q := by
  unfold jsToFixed
  apply div_nonneg _ (by positivity)
  have hr : (0 : ℤ) ≤ round (q * (10 : ℚ) ^ d) := by
    rw [round_eq]
    apply Int.le_floor.mpr
    have : (0 : ℚ) ≤ q * (10 : ℚ) ^ d := by positivity
    push_cast
    linarith
  exact_mod_cast hr

/-- The retry risk lies in [0, 1]. -/
theorem retryRiskOf_bounds (issues : List Issue) :
    0 ≤ retryRiskOf issues ∧ retryRiskOf issues ≤ 1 := by
  unfold retryRiskOf
  constructor
  · apply le_min (by norm_num)
    apply jsToFixed_nonneg
    split_ifs <;> norm_num
  · exact min_le_left _ _

-- Concrete evaluations of the analyzer reduce inside the kernel; allow them
-- the room they need, and let the elaborator unfold the rational-arithmetic
-- primitives (sealed by default) so that decide can evaluate them.
set_option maxHeartbeats 4000000

attribute [local semireducible] Rat.ofScientific Rat.add Rat.mul Rat.sub Rat.inv

-- ---------------------------------------------------------------------------
-- C4: score formula, bounds and grade ladder
-- ---------------------------------------------------------------------------

/-- C4: for every input, the score equals max(0, 100 − min(70, Σ severity
weights over the emitted issues)) with weights high = 22, med = 11, low = 5,
hence lies in [30, 100] (a fortiori in [0, 100]); and the grade ladder is
A iff score ≥ 90, B iff 75 ≤ score < 90, C iff 60 ≤ score < 75, D otherwise. -/
theorem c4_score_formula_and_grades (rules : Rules) (prompt : String) (params : Params) :
    let r := analyzePrompt rules prompt params
    r.score = max 0 (100 - min 70 (penaltyOf r.issues)) ∧
    30 ≤ r.score ∧ r.score ≤ 100 ∧
    (r.grade = "A" ↔ 90 ≤ r.score) ∧ (r.grade = "B" ↔ 75 ≤ r.score ∧ r.score < 90) ∧
    (r.grade = "C" ↔ 60 ≤ r.score ∧ r.score < 75) ∧ (r.grade = "D" ↔ r.score < 60) := by
  intro r
  have hb := scoreOf_bounds (buildIssues rules prompt params)
  have hg := gradeOf_char (scoreOf (buildIssues rules prompt params))
  exact ⟨rfl, hb.1, hb.2, hg.1, hg.2.1, hg.2.2.1, hg.2.2.2⟩

-- ---------------------------------------------------------------------------
-- C9: determinism
-- ---------------------------------------------------------------------------

/-- C9: the analyzer is a deterministic pure function of
(text, parameters, RuleConfig): two calls with identical text, identical
parameters and identical rule configuration return identical reports. -/
theorem c9_deterministic (rules : Rules) (t1 t2 : String) (p1 p2 : Params)
    (ht : t1 = t2) (hp : p1 = p2) :
    analyzePrompt rules t1 p1 = analyzePrompt rules t2 p2 := by
  subst ht; subst hp; rfl

/-- Witness for C9 at a concrete input. -/
theorem c9_deterministic_witness :
    analyzePrompt FALLBACK "hi" {} = analyzePrompt FALLBACK "hi" {} :=
  c9_deterministic FALLBACK "hi" "hi" {} {} rfl rfl

-- ---------------------------------------------------------------------------
-- C7: scenario A
-- ---------------------------------------------------------------------------

/-- C7: on "Write an essay about automation" with no parameters and the
fallback configuration, the detected task is "write", the issues are exactly
NO_MAX_TOKENS (severity high) and MISSING_FORMAT (severity med), the score
is 67 = 100 − (22 + 11) and the grade is "C". -/
theorem c7_scenario_a :
    (analyzePrompt FALLBACK "Write an essay about automation" {}).metrics_params.task = "write"
  ∧ (analyzePrompt FALLBACK "Write an essay about automation" {}).issues.map (fun i => (i.id, i.sev))
      = [("NO_MAX_TOKENS", "high"), ("MISSING_FORMAT", "med")]
  ∧ (analyzePrompt FALLBACK "Write an essay about automation" {}).score = 67
  ∧ (analyzePrompt FALLBACK "Write an essay about automation" {}).grade = "C" := by
  decide

-- ---------------------------------------------------------------------------
-- C3: scenario B (corrected)
-- ---------------------------------------------------------------------------

/-- C3 counterexample: on the scenario-B input the vagueness hit count is 1,
not at least 3 (the weak-verb entry "make better" does not match the phrase
"make it better", and vague-phrase pattern hits do not add to the count), so
the VAGUE_LANGUAGE issue carries severity "med", not "high". -/
theorem c3_counterexample :
    vaguenessScore "improve this, make it better, any ideas?" = 1
  ∧ ¬ 3 ≤ vaguenessScore "improve this, make it better, any ideas?"
  ∧ (analyzePrompt FALLBACK "improve this, make it better, any ideas?"
        { max_tokens := some 200 }).issues.map (fun i => (i.id, i.sev))
      = [("VAGUE_LANGUAGE", "med")] := by
  decide

/-- C3 amended: on the scenario-B input with cap 200 the vagueness hit count
is exactly 1; the VAGUE_LANGUAGE issue is still emitted (via the vague-phrase
pattern) but with severity "med"; NO_MAX_TOKENS is absent; and retryRisk
is exactly 0.35 (hence at least 0.35). -/
theorem c3_scenario_b_amended :
    vaguenessScore "improve this, make it better, any ideas?" = 1
  ∧ (analyzePrompt FALLBACK "improve this, make it better, any ideas?"
        { max_tokens := some 200 }).issues.map (fun i => (i.id, i.sev))
      = [("VAGUE_LANGUAGE", "med")]
  ∧ hasIssueId (analyzePrompt FALLBACK "improve this, make it better, any ideas?"
        { max_tokens := some 200 }).issues "NO_MAX_TOKENS" = false
  ∧ (analyzePrompt FALLBACK "improve this, make it better, any ideas?"
        { max_tokens := some 200 }).retryRisk = 7/20
  ∧ (7/20 : ℚ) ≤ (analyzePrompt FALLBACK "improve this, make it better, any ideas?"
        { max_tokens := some 200 }).retryRisk := by
  decide

-- ---------------------------------------------------------------------------
-- C5: readability formula (corrected)
-- ---------------------------------------------------------------------------

/-- The readability formula as the claim words it: a per-word default of one
syllable for any word with no vowel run. Stated only to compare with the
source function. -/
def freClaimed (text : String) : ℚ :=
  let words := splitWords (jsTrim text)
  let S : ℚ := (let n := sentenceCount text; if n = 0 then 1 else (n : ℚ))
  let W : ℚ := if words.length = 0 then 1 else (words.length : ℚ)
  let syl : ℚ := ((words.map (fun w => let r := vowelRunCount w; if r = 0 then 1 else r)).sum : ℕ)
  jsToFixed 1 (206.835 - 1.015 * (W / S) - 84.6 * (syl / W))

/-- C5 counterexample: on "a bcd" the source counts 1 syllable in total (the
word "bcd" contributes 0 since the total is non-zero), giving 162.5, while
the claim's per-word default of 1 gives 120.2. -/
theorem c5_counterexample :
    (analyzePrompt FALLBACK "a bcd" {}).metrics_input.fleschReadingEase = 325/2
  ∧ fleschReadingEase "a bcd" = 325/2
  ∧ freClaimed "a bcd" = 601/5
  ∧ fleschReadingEase "a bcd" ≠ freClaimed "a bcd" := by
  decide

/-- The readability formula as amended: total syllables are the sum of
per-word vowel-run counts with one global fallback to the guarded word count
when that sum is zero; both denominators are guarded to at least 1; the
result is rounded to one decimal. -/
def freAmendedSpec (text : String) : ℚ :=
  let words := splitWords (jsTrim text)
  let S : ℚ := ((max 1 (sentenceCount text) : ℕ) : ℚ)
  let W : ℚ := ((max 1 words.length : ℕ) : ℚ)
  let raw := (words.map vowelRunCount).sum
  let syl : ℚ := if raw = 0 then W else (raw : ℚ)
  jsToFixed 1 (206.835 - 1.015 * (W / S) - 84.6 * (syl / W))

/-- The source readability function meets the amended formula. -/
theorem fre_eq_amended (text : String) : fleschReadingEase text = freAmendedSpec text := by
  have hguard : ∀ n : ℕ, (if n = 0 then (1 : ℚ) else (n : ℚ)) = ((max 1 n : ℕ) : ℚ) := by
    intro n
    rcases Nat.eq_zero_or_pos n with h | h
    · subst h; simp
    · rw [if_neg (by omega), max_eq_right (by omega : 1 ≤ n)]
  unfold fleschReadingEase freAmendedSpec
  simp only [hguard]

/-- C5 amended: for every input text the emitted readability metric equals
206.835 − 1.015 (W/S) − 84.6 (syl/W) rounded to one decimal, with W, S
guarded to at least 1 and syl the total vowel-run count falling back to W
globally when zero. -/
theorem c5_readability_amended (text : String) (params : Params) :
    (analyzePrompt FALLBACK text params).metrics_input.fleschReadingEase = freAmendedSpec text :=
  fre_eq_amended text

-- ---------------------------------------------------------------------------
-- C1: impact-estimate scaling (corrected)
-- ---------------------------------------------------------------------------

/-- A single space, used to build test prompts. -/
def spc : String := " "

/-- A 20-word prompt (token estimate 15). -/
def p20 : String := String.intercalate spc (List.replicate 20 "cat")

/-- C1 counterexample: for a 20-word prompt (token estimate 15) under the
fallback configuration, doubling the cap from 150 to 300 moves the emitted
energy from 0.0033 to 0.0063, not to 0.0066; both values are exact at 4
decimals (the raw values coincide with the emitted ones), so rounding plays
no role. -/
theorem c1_counterexample :
    estimateTokens p20 = 15
  ∧ (analyzePrompt FALLBACK p20 { max_tokens := some 150 }).impact_estimate.kWh = 33/10000
  ∧ (analyzePrompt FALLBACK p20 { max_tokens := some 300 }).impact_estimate.kWh = 63/10000
  ∧ rawKWh FALLBACK p20 (some 150) = 33/10000
  ∧ rawKWh FALLBACK p20 (some 300) = 63/10000
  ∧ ¬ (63/10000 : ℚ) = 2 * (33/10000) := by
  decide

/-- C1 amended: the impact model is affine in the cap
(totalTokens = tokenEstimate + cap), so doubling the output cap exactly
doubles the unrounded energy, CO2 and water values precisely when the
prompt's token estimate is zero; the emitted report fields are these values
rounded to 4 decimals. -/
theorem c1_impact_scaling_amended (rules : Rules) (prompt : String) (c : ℚ)
    (htok : estimateTokens prompt = 0) (hc : 0 < c) :
    rawKWh rules prompt (some (2 * c)) = 2 * rawKWh rules prompt (some c)
  ∧ rawCO2 rules prompt (some (2 * c)) = 2 * rawCO2 rules prompt (some c)
  ∧ rawWater rules prompt (some (2 * c)) = 2 * rawWater rules prompt (some c)
  ∧ (analyzePrompt rules prompt { max_tokens := some c }).impact_estimate.kWh
      = jsToFixed 4 (rawKWh rules prompt (some c)) := by
  have hcap : ∀ d : ℚ, d ≠ 0 → outputCap rules (some d) = d := by
    intro d hd
    have hb : ((d : ℚ) == 0) = false := beq_eq_false_iff_ne.mpr hd
    simp [outputCap, capSupplied, hb]
  have h1 : rawKWh rules prompt (some (2 * c)) = 2 * rawKWh rules prompt (some c) := by
    unfold rawKWh
    rw [htok, hcap c (ne_of_gt hc), hcap (2 * c) (by positivity)]
    push_cast
    ring
  refine ⟨h1, ?_, ?_, rfl⟩
  · unfold rawCO2; rw [h1]; ring
  · unfold rawWater; rw [h1]; ring

/-- Witness for C1 at the empty prompt with cap 100. -/
theorem c1_impact_scaling_witness :
    rawKWh FALLBACK "" (some (2 * 100)) = 2 * rawKWh FALLBACK "" (some 100) :=
  (c1_impact_scaling_amended FALLBACK "" 100 (by decide) (by norm_num)).1

-- ---------------------------------------------------------------------------
-- C6: impact non-negativity (corrected)
-- ---------------------------------------------------------------------------

/-- C6 counterexample: a finite negative cap is accepted verbatim by the
impact estimator, making all three emitted impact fields negative. -/
theorem c6_counterexample :
    (analyzePrompt FALLBACK "" { max_tokens := some (-5000) }).impact_estimate.kWh = -(1/10)
  ∧ ¬ 0 ≤ (analyzePrompt FALLBACK "" { max_tokens := some (-5000) }).impact_estimate.kWh
  ∧ (analyzePrompt FALLBACK "" { max_tokens := some (-5000) }).impact_estimate.CO2e_kg = -(7/200)
  ∧ (analyzePrompt FALLBACK "" { max_tokens := some (-5000) }).impact_estimate.water_L = -(1/10) := by
  decide

/-- C6 amended: under the fallback configuration the three emitted impact
fields are non-negative for every text and every parameter bag whose
supplied finite cap (if any) is non-negative. -/
theorem c6_impact_nonneg_amended (prompt : String) (params : Params)
    (hcap : ∀ q : ℚ, params.max_tokens = some q → 0 ≤ q) :
    0 ≤ (analyzePrompt FALLBACK prompt params).impact_estimate.kWh
  ∧ 0 ≤ (analyzePrompt FALLBACK prompt params).impact_estimate.CO2e_kg
  ∧ 0 ≤ (analyzePrompt FALLBACK prompt params).impact_estimate.water_L := by
  have htok : (0 : ℚ) ≤ ((estimateTokens prompt : ℤ) : ℚ) := by
    have hz : (0 : ℤ) ≤ estimateTokens prompt := by
      unfold estimateTokens
      rw [round_eq]
      apply Int.le_floor.mpr
      push_cast
      positivity
    exact_mod_cast hz
  have hout : 0 ≤ outputCap FALLBACK params.max_tokens := by
    unfold outputCap
    split_ifs with h
    · cases hmt : params.max_tokens with
      | none => rw [hmt] at h; simp [capSupplied] at h
      | some q => simpa using hcap q hmt
    · decide
  have hk : 0 ≤ rawKWh FALLBACK prompt params.max_tokens := by
    unfold rawKWh
    have hcoef : (0 : ℚ) ≤ FALLBACK.impact.kWh_per_1k_tokens_mid := by decide
    have hsum : (0 : ℚ) ≤ ((estimateTokens prompt : ℤ) : ℚ) + outputCap FALLBACK params.max_tokens :=
      add_nonneg htok hout
    exact mul_nonneg (div_nonneg hsum (by norm_num)) hcoef
  refine ⟨jsToFixed_nonneg _ _ hk, jsToFixed_nonneg _ _ ?_, jsToFixed_nonneg _ _ ?_⟩
  · unfold rawCO2; exact mul_nonneg hk (by decide)
  · unfold rawWater; exact mul_nonneg hk (by decide)

/-- Witness for C6 at a concrete input with no cap supplied. -/
theorem c6_impact_nonneg_witness :
    0 ≤ (analyzePrompt FALLBACK "hi" {}).impact_estimate.kWh
  ∧ 0 ≤ (analyzePrompt FALLBACK "hi" {}).impact_estimate.CO2e_kg
  ∧ 0 ≤ (analyzePrompt FALLBACK "hi" {}).impact_estimate.water_L :=
  c6_impact_nonneg_amended "hi" {} (fun _ h => nomatch h)

-- ---------------------------------------------------------------------------
-- C2: config merge (corrected)
-- ---------------------------------------------------------------------------

/-- A partial external config supplying only one task-keyword entry. -/
def c2in : RulesIn := { taskKeywords := some [("summarize", Pat.lits ["summarize"])] }

/-- C2 counterexample: supplying only some task-keyword entries does not keep
the remaining defaults: the merged map is replaced wholesale and loses the
fallback "write" entry. -/
theorem c2_counterexample :
    (mergeRules c2in).taskKeywords = [("summarize", Pat.lits ["summarize"])]
  ∧ (mergeRules c2in).taskKeywords.find? (fun kv => kv.1 == "write") = none
  ∧ FALLBACK.taskKeywords.find? (fun kv => kv.1 == "write")
      = some ("write", Pat.lits ["write", "compose", "draft", "create", "essay"]) := by
  decide

/-- C2 amended: the merge preserves defaults field-by-field only inside the
thresholds and impact blocks; the vague-phrase list, the verbose-phrase list
and the task-keyword map are taken wholesale from the external config when
supplied (so omitted entries inside them are lost) and fall back wholesale
when absent. A config overriding only thresholds.maxWordsPrompt keeps every
other default intact. -/
theorem c2_merge_amended (rin : RulesIn) :
    ((rin.thresholds.getD {}).maxWordsPrompt = none →
        (mergeRules rin).thresholds.maxWordsPrompt = FALLBACK.thresholds.maxWordsPrompt)
  ∧ ((rin.thresholds.getD {}).maxSentencesPrompt = none →
        (mergeRules rin).thresholds.maxSentencesPrompt = FALLBACK.thresholds.maxSentencesPrompt)
  ∧ ((rin.thresholds.getD {}).longWordLen = none →
        (mergeRules rin).thresholds.longWordLen = FALLBACK.thresholds.longWordLen)
  ∧ ((rin.thresholds.getD {}).defaultMaxTokens = none →
        (mergeRules rin).thresholds.defaultMaxTokens = FALLBACK.thresholds.defaultMaxTokens)
  ∧ ((rin.impact.getD {}).kWh_per_1k_tokens_mid = none →
        (mergeRules rin).impact.kWh_per_1k_tokens_mid = FALLBACK.impact.kWh_per_1k_tokens_mid)
  ∧ ((rin.impact.getD {}).grid_kgCO2_per_kWh = none →
        (mergeRules rin).impact.grid_kgCO2_per_kWh = FALLBACK.impact.grid_kgCO2_per_kWh)
  ∧ ((rin.impact.getD {}).water_L_per_kWh = none →
        (mergeRules rin).impact.water_L_per_kWh = FALLBACK.impact.water_L_per_kWh)
  ∧ (rin.vaguePhrases = none → (mergeRules rin).vaguePhrases = FALLBACK.vaguePhrases)
  ∧ (∀ l, rin.vaguePhrases = some l → (mergeRules rin).vaguePhrases = l)
  ∧ (rin.verbosePhrases = none → (mergeRules rin).verbosePhrases = FALLBACK.verbosePhrases)
  ∧ (∀ l, rin.verbosePhrases = some l → (mergeRules rin).verbosePhrases = l)
  ∧ (rin.taskKeywords = none → (mergeRules rin).taskKeywords = FALLBACK.taskKeywords)
  ∧ (∀ l, rin.taskKeywords = some l → (mergeRules rin).taskKeywords = l)
  ∧ (∀ w : ℚ, mergeRules { thresholds := some { maxWordsPrompt := some w } }
        = { FALLBACK with thresholds := { FALLBACK.thresholds with maxWordsPrompt := w } }) := by
  refine ⟨?_, ?_, ?_, ?_, ?_, ?_, ?_, ?_, ?_, ?_, ?_, ?_, ?_, fun w => rfl⟩ <;>
    (intros; simp [mergeRules, *])

/-- Witness for C2: the documented scenario, overriding only maxWordsPrompt. -/
theorem c2_merge_witness :
    (mergeRules { thresholds := some { maxWordsPrompt := some 200 } }).thresholds.maxSentencesPrompt
      = FALLBACK.thresholds.maxSentencesPrompt
  ∧ (mergeRules { thresholds := some { maxWordsPrompt := some 200 } }).vaguePhrases
      = FALLBACK.vaguePhrases
  ∧ (mergeRules { thresholds := some { maxWordsPrompt := some 200 } }).taskKeywords
      = FALLBACK.taskKeywords :=
  ⟨(c2_merge_amended _).2.1 rfl,
   (c2_merge_amended _).2.2.2.2.2.2.2.1 rfl,
   (c2_merge_amended _).2.2.2.2.2.2.2.2.2.2.2.1 rfl⟩

-- ---------------------------------------------------------------------------
-- C8: totality and the empty input
-- ---------------------------------------------------------------------------

/-- HIGH_TEMP_DETERMINISTIC never fires for the "general" task. -/
theorem issuesHighTemp_general (temp : Option ℚ) : issuesHighTemp "general" temp = [] := by
  cases temp with
  | none => rfl
  | some t =>
    simp only [issuesHighTemp]
    rw [if_neg]
    rintro ⟨-, h⟩
    rcases h with h | h | h | h <;> exact absurd h (by decide)

/-- On the empty prompt every detector block except NO_MAX_TOKENS is empty. -/
theorem analyzeIssues_empty (mt temp : Option ℚ) :
    (analyzePrompt FALLBACK "" { max_tokens := mt, temperature := temp }).issues
      = issuesNoMax mt := by
  show buildIssues FALLBACK "" { max_tokens := mt, temperature := temp } = issuesNoMax mt
  unfold buildIssues
  rw [show issuesTooLong FALLBACK "" = [] from rfl,
      show issuesTooManySentences FALLBACK "" = [] from rfl,
      show issuesVague FALLBACK "" = [] from rfl,
      show issuesVerbose FALLBACK "" = [] from rfl,
      show issuesReadability FALLBACK "" = [] from rfl,
      show issuesSchema FALLBACK "" = [] from rfl,
      show issuesFormat FALLBACK "" = [] from rfl,
      show issuesRedundancy "" = [] from rfl,
      show detectTask FALLBACK "" = "general" from rfl,
      issuesHighTemp_general]
  simp

/-- C8: the analyzer is total (every string input yields a well-formed
report: score in [30, 100], retry risk in [0, 1]); on the empty string the
word, sentence and token metrics are 0, no PROMPT_TOO_LONG or
TOO_MANY_SENTENCES issue appears, and NO_MAX_TOKENS (severity high) is still
emitted when no cap is supplied. -/
theorem c8_totality_and_empty (text : String) (params : Params) :
    (30 ≤ (analyzePrompt FALLBACK text params).score
      ∧ (analyzePrompt FALLBACK text params).score ≤ 100
      ∧ 0 ≤ (analyzePrompt FALLBACK text params).retryRisk
      ∧ (analyzePrompt FALLBACK text params).retryRisk ≤ 1)
  ∧ (analyzePrompt FALLBACK "" params).metrics_input.words = 0
  ∧ (analyzePrompt FALLBACK "" params).metrics_input.sentences = 0
  ∧ (analyzePrompt FALLBACK "" params).metrics_input.tokens = 0
  ∧ (∀ i ∈ (analyzePrompt FALLBACK "" params).issues,
       i.id ≠ "PROMPT_TOO_LONG" ∧ i.id ≠ "TOO_MANY_SENTENCES")
  ∧ (params.max_tokens = none →
       nomaxIssue ∈ (analyzePrompt FALLBACK "" params).issues) := by
  obtain ⟨mt, temp⟩ := params
  have hsb := scoreOf_bounds (buildIssues FALLBACK text ⟨mt, temp⟩)
  have hrb := retryRiskOf_bounds (buildIssues FALLBACK text ⟨mt, temp⟩)
  refine ⟨⟨hsb.1, hsb.2, hrb.1, hrb.2⟩, rfl, rfl, rfl, ?_, ?_⟩
  · intro i hi
    rw [analyzeIssues_empty] at hi
    unfold issuesNoMax at hi
    split at hi
    · simp at hi
    · simp at hi
      subst hi
      exact ⟨by decide, by decide⟩
  · intro hmt
    subst hmt
    rw [analyzeIssues_empty]
    simp [issuesNoMax, capSupplied]

/-- Witness for C8 at the empty prompt with no parameters. -/
theorem c8_totality_witness :
    nomaxIssue ∈ (analyzePrompt FALLBACK "" {}).issues
  ∧ (analyzePrompt FALLBACK "" {}).metrics_input.words = 0 :=
  ⟨(c8_totality_and_empty "" {}).2.2.2.2.2 rfl, (c8_totality_and_empty "" {}).2.1⟩

-- ---------------------------------------------------------------------------
-- C10: a zero cap behaves exactly like an absent cap
-- ---------------------------------------------------------------------------

/-- C10: a supplied cap of exactly 0 is treated exactly like an absent cap:
the full report coincides with the no-cap report; NO_MAX_TOKENS (severity
high) is emitted; the SET_MAX_TOKENS autofix is emitted; the echoed
metrics.params.max_tokens is null; and the impact estimate uses the default
cap (the raw energy of the no-cap call), not 0. -/
theorem c10_zero_cap (rules : Rules) (text : String) (temp : Option ℚ) :
    analyzePrompt rules text { max_tokens := some 0, temperature := temp }
      = analyzePrompt rules text { max_tokens := none, temperature := temp }
  ∧ nomaxIssue ∈ (analyzePrompt rules text { max_tokens := some 0, temperature := temp }).issues
  ∧ Autofix.setMaxTokens 200
      ∈ (analyzePrompt rules text { max_tokens := some 0, temperature := temp }).autofixes
  ∧ (analyzePrompt rules text { max_tokens := some 0, temperature := temp }).metrics_params.max_tokens
      = none
  ∧ (analyzePrompt rules text { max_tokens := some 0, temperature := temp }).impact_estimate.kWh
      = jsToFixed 4 (rawKWh rules text none) := by
  refine ⟨rfl, ?_, ?_, rfl, rfl⟩
  · show nomaxIssue ∈ buildIssues rules text { max_tokens := some 0, temperature := temp }
    unfold buildIssues
    rw [show issuesNoMax (some 0) = [nomaxIssue] from rfl]
    simp
  · show Autofix.setMaxTokens 200
        ∈ buildAutofixes rules text { max_tokens := some 0, temperature := temp }
    unfold buildAutofixes
    rw [show autofixNoMax (some 0) = [Autofix.setMaxTokens 200] from rfl]
    simp
